import Mathlib

/-!
Verification of the summarization core of the `symmarizerb` repository
(`src/langchain_summarizer.py` and the API wrapper in `src/main.py`).

Python strings are modelled as `List Char` (the ASCII fragment: `str.lower`
is modelled by `Char.toLower`, which lower-cases exactly the ASCII letters,
and `str.strip` by removal of the ASCII whitespace characters).  The string
primitives used by the source (`split`, `lower`, `strip`, substring
containment via `in`, slicing `[:100]`, `startswith`) are defined below
with Python semantics.  IO-only data (datetime timestamps, logging) is not
modelled.  The OpenAI chat-completion backend is modelled as an optional
client handle `Option LLMClient`, a function from the request the source
builds (model id, messages, max_tokens, temperature) to either a response
text or an exception message; `None` corresponds to a missing API key.
-/

namespace Symmarizer

/-- Python `str`, modelled as a list of characters. -/
abbrev Str := List Char

/-- Embed a Lean string literal as a `Str`. -/
def S (s : String) : Str := s.data

/-- `isPrefixL p s` : does `s` start with `p`?  (Python `s.startswith(p)`.) -/
def isPrefixL : Str → Str → Bool
  | [], _ => true
  | _ :: _, [] => false
  | a :: as, b :: bs => a == b && isPrefixL as bs

/-- Python substring containment `needle in haystack`. -/
def containsSub (needle : Str) : Str → Bool
  | [] => needle.isEmpty
  | c :: cs => isPrefixL needle (c :: cs) || containsSub needle cs

/-- Worker for `pySplit`: `skip` counts separator characters still to be
consumed without being added to any segment. -/
def pySplitAux (sep : Str) : Nat → Str → List Str
  | _, [] => [[]]
  | skip + 1, _ :: cs => pySplitAux sep skip cs
  | 0, c :: cs =>
    if !sep.isEmpty && isPrefixL sep (c :: cs) then
      [] :: pySplitAux sep (sep.length - 1) cs
    else
      match pySplitAux sep 0 cs with
      | [] => [[c]]
      | h :: t => (c :: h) :: t

/-- Python `s.split(sep)` for a non-empty separator `sep`: split `s` at each
non-overlapping occurrence of `sep`, scanning left to right.  (Python raises
on an empty separator; here an empty separator returns `[s]`, a case the
source never exercises.) -/
def pySplit (sep s : Str) : List Str := pySplitAux sep 0 s

/-- Python `s.lower()` (ASCII fragment). -/
def pyLower (s : Str) : Str := s.map Char.toLower

/-- Python's notion of (ASCII) whitespace, as used by `str.strip()`. -/
def isPyWhitespace (c : Char) : Bool :=
  c == ' ' || c == '\t' || c == '\n' || c == '\r' || c == '\x0b' || c == '\x0c'

/-- Drop leading whitespace. -/
def pyStripLeft : Str → Str
  | [] => []
  | c :: cs => if isPyWhitespace c then pyStripLeft cs else c :: cs

/-- Python `s.strip()`: drop leading and trailing whitespace. -/
def pyStrip (s : Str) : Str :=
  ((pyStripLeft ((pyStripLeft s.reverse)).reverse).reverse).reverse

/-! ### `NotificationSummarizer._fallback_summary` -/

/-- The keyword list `important_words` of `_fallback_summary`. -/
def important_words : List Str :=
  [S "urgent", S "important", S "update", S "new", S "alert", S "reminder"]

/-- The loop body test of `_fallback_summary`:
`any(word.lower() in sentence.lower() for word in important_words)`. -/
def hasImportantWord (sentence : Str) : Bool :=
  important_words.any (fun word => containsSub (pyLower word) (pyLower sentence))

/-- `NotificationSummarizer._fallback_summary` (lines 261-283 of
`langchain_summarizer.py`). -/
def fallback_summary (text : Str) : Str :=
  if text.length ≤ 100 then text
  else
    let sentences := pySplit (S ". ") text
    if sentences.length ≤ 2 then
      (if 100 < text.length then text.take 100 ++ S "..." else text)
    else
      match sentences.find? hasImportantWord with
      | some important_sentence =>
          sentences.getD 0 [] ++ S ". " ++ important_sentence ++ S "."
      | none =>
          sentences.getD 0 [] ++
            (if 1 < sentences.length then S ". " ++ sentences.getD 1 [] ++ S "." else [])

/-! ### `NotificationSummarizer._get_app_type` -/

/-- The ordered keyword table `app_types` of `_get_app_type` (a Python dict,
iterated in insertion order). -/
def app_types : List (Str × List Str) :=
  [ (S "messaging", [S "whatsapp", S "telegram", S "messages", S "sms",
      S "messenger", S "slack", S "discord"]),
    (S "email", [S "gmail", S "outlook", S "mail", S "email"]),
    (S "social", [S "facebook", S "instagram", S "twitter", S "linkedin",
      S "snapchat", S "tiktok"]),
    (S "news", [S "news", S "bbc", S "cnn", S "reuters", S "medium"]),
    (S "productivity", [S "calendar", S "reminder", S "notes", S "drive",
      S "dropbox"]),
    (S "entertainment", [S "youtube", S "spotify", S "netflix", S "music"]),
    (S "system", [S "android", S "system", S "settings", S "security"]) ]

/-- `NotificationSummarizer._get_app_type` (lines 285-302). -/
def get_app_type (package_name : Str) : Str :=
  let package_lower := pyLower package_name
  match app_types.find? (fun p => p.2.any (fun keyword => containsSub keyword package_lower)) with
  | some p => p.1
  | none => S "other"

/-! ### `NotificationSummarizer._contains_sentiment_indicators` -/

/-- The 17-word list `sentiment_words`. -/
def sentiment_words : List Str :=
  [S "urgent", S "important", S "critical", S "warning", S "error", S "failed",
   S "congratulations", S "success", S "completed", S "approved", S "rejected",
   S "love", S "hate", S "angry", S "happy", S "sad", S "excited"]

/-- `NotificationSummarizer._contains_sentiment_indicators` (lines 304-313). -/
def contains_sentiment_indicators (text : Str) : Bool :=
  sentiment_words.any (fun word => containsSub word (pyLower text))

/-! ### `NotificationSummarizer._parse_sentiment_response` -/

/-- Result record of `_parse_sentiment_response`. -/
structure SentimentParse where
  summary : Str
  urgency : Str
  sentiment : Str
  confidence : Str
deriving DecidableEq

/-- One iteration of the `for part in parts[1:]` loop of
`_parse_sentiment_response`, acting on the `(urgency, sentiment)` state.
`part.split(":")[1]` is a fallible index: `none` models the `IndexError`
that the surrounding `try` would catch. -/
def sentStep (st : Str × Str) (part : Str) : Option (Str × Str) :=
  if isPrefixL (S "Urgency:") part then
    match (pySplit (S ":") part)[1]? with
    | some v => some (pyLower (pyStrip v), st.2)
    | none => none
  else if isPrefixL (S "Sentiment:") part then
    match (pySplit (S ":") part)[1]? with
    | some v => some (st.1, pyLower (pyStrip v))
    | none => none
  else some st

/-- The whole `for` loop of `_parse_sentiment_response`, propagating a
potential exception. -/
def sentLoop : Str × Str → List Str → Option (Str × Str)
  | st, [] => some st
  | st, part :: parts =>
    match sentStep st part with
    | some st2 => sentLoop st2 parts
    | none => none

/-- The `try` body of `_parse_sentiment_response` (lines 317-334): `none`
models an escaping exception (`parts[0]` or `part.split(":")[1]` out of
range). -/
def parse_sentiment_try (response : Str) : Option SentimentParse :=
  match pySplit (S " | ") response with
  | [] => none
  | summary :: rest =>
    match sentLoop (S "medium", S "neutral") rest with
    | some (urgency, sentiment) =>
        some { summary := summary, urgency := urgency, sentiment := sentiment,
               confidence := S "high" }
    | none => none

/-- `NotificationSummarizer._parse_sentiment_response` (lines 315-341),
including the `except` branch. -/
def parse_sentiment_response (response : Str) : SentimentParse :=
  match parse_sentiment_try response with
  | some r => r
  | none =>
      { summary := response, urgency := S "medium", sentiment := S "neutral",
        confidence := S "low" }

/-! ### The OpenAI client model and `_call_openai` -/

/-- One chat message (`{"role": ..., "content": ...}`). -/
structure PyMessage where
  role : Str
  content : Str
deriving DecidableEq

/-- The request `_call_openai` sends: `client.chat.completions.create(...)`
with its literal arguments. -/
structure ChatRequest where
  model : Str
  messages : List PyMessage
  max_tokens : Nat
  temperature : ℚ
deriving DecidableEq

/-- The external chat-completion backend: maps a request to either the
response text (`choices[0].message.content`) or a raised exception message. -/
def LLMClient : Type := ChatRequest → Except Str Str

/-- `NotificationSummarizer._call_openai` (lines 49-64): raises when the
client is missing, otherwise issues the request and strips the response;
an API failure is re-raised. -/
def call_openai (client : Option LLMClient) (messages : List PyMessage)
    (max_tokens : Nat := 150) : Except Str Str :=
  match client with
  | none => .error (S "OpenAI client not available")
  | some f =>
    match f { model := S "gpt-3.5-turbo", messages := messages,
              max_tokens := max_tokens, temperature := 3/10 } with
    | .ok text => .ok (pyStrip text)
    | .error e => .error e

/-! ### `summarize_basic`, `summarize_contextual`, `summarize_with_sentiment` -/

/-- `NotificationSummarizer.summarize_basic` (lines 66-97). -/
def summarize_basic (client : Option LLMClient) (text : Str) : Str :=
  match client with
  | none => fallback_summary text
  | some _ =>
    let messages : List PyMessage :=
      [ { role := S "system",
          content := S "You are an expert at summarizing notifications concisely. Create brief, clear summaries that capture the essential information. Keep summaries under 50 words and focus on actionable information." },
        { role := S "user",
          content := S "Summarize this notification: " ++ text } ]
    match call_openai client messages with
    | .ok result => result
    | .error _ => fallback_summary text

/-- Result record of `summarize_contextual` (the `timestamp` field, a
wall-clock reading, is not modelled). -/
structure CtxResult where
  summary : Str
  app_type : Str
  confidence : Str
  error : Option Str
deriving DecidableEq

/-- `NotificationSummarizer.summarize_contextual` (lines 99-158). -/
def summarize_contextual (client : Option LLMClient)
    (package_name title content : Str) : CtxResult :=
  match client with
  | none =>
      { summary := fallback_summary content,
        app_type := get_app_type package_name,
        confidence := S "low", error := none }
  | some _ =>
    let messages : List PyMessage :=
      [ { role := S "system",
          content := S "You are a smart notification summarizer. Based on the app type and content, create relevant summaries:\n                    - For messaging apps: Who messaged and brief content\n                    - For emails: Sender and subject/key points\n                    - For social media: Platform and type of notification\n                    - For system apps: What action or update occurred\n                    - For news apps: Headline and key information\n                    \n                    Keep summaries under 50 words and highlight important details." },
        { role := S "user",
          content := S "\n                    App: " ++ package_name ++
            S "\n                    Title: " ++ title ++
            S "\n                    Content: " ++ content ++
            S "\n                    " } ]
    match call_openai client messages with
    | .ok result =>
        { summary := result, app_type := get_app_type package_name,
          confidence := S "high", error := none }
    | .error e =>
        { summary := fallback_summary content,
          app_type := get_app_type package_name,
          confidence := S "low", error := some e }

/-- Result record of `summarize_with_sentiment` (`timestamp` not modelled). -/
structure SentResult where
  summary : Str
  urgency : Str
  sentiment : Str
  confidence : Str
  error : Option Str
deriving DecidableEq

/-- `NotificationSummarizer.summarize_with_sentiment` (lines 160-214). -/
def summarize_with_sentiment (client : Option LLMClient) (text : Str) : SentResult :=
  match client with
  | none =>
      { summary := fallback_summary text, urgency := S "medium",
        sentiment := S "neutral", confidence := S "low", error := none }
  | some _ =>
    let messages : List PyMessage :=
      [ { role := S "system",
          content := S "You are a notification summarizer that includes sentiment analysis.\n                    Create a summary that includes:\n                    1. Main message (under 40 words)\n                    2. Urgency level (Low/Medium/High)\n                    3. Sentiment (Positive/Neutral/Negative)\n                    \n                    Format: \"Summary | Urgency: [level] | Sentiment: [sentiment]\" " },
        { role := S "user",
          content := S "Notification: " ++ text } ]
    match call_openai client messages with
    | .ok result =>
        let parsed := parse_sentiment_response result
        { summary := parsed.summary, urgency := parsed.urgency,
          sentiment := parsed.sentiment, confidence := parsed.confidence,
          error := none }
    | .error e =>
        { summary := fallback_summary text, urgency := S "medium",
          sentiment := S "neutral", confidence := S "low", error := some e }

/-! ### `smart_summarize` -/

/-- The merged result dictionary returned by `smart_summarize`.  Keys that
are absent on some dispatch paths (`app_type`, `urgency`, `sentiment`,
`error`) are `Option`s; the wall-clock `processed_at` field is not
modelled.  `compression_ratio` is the exact rational value of the Python
float division `len(summary) / max(len(content), 1)`. -/
structure SummaryResult where
  summary : Str
  strategy : Str
  app_type : Option Str
  confidence : Str
  urgency : Option Str
  sentiment : Option Str
  error : Option Str
  original_length : Nat
  compression_ratio : ℚ
deriving DecidableEq

/-- `NotificationSummarizer.smart_summarize` (lines 216-259). -/
def smart_summarize (client : Option LLMClient)
    (package_name title content raw_text : Str) : SummaryResult :=
  let text_length := content.length
  let app_type := get_app_type package_name
  let base : SummaryResult :=
    if 200 < text_length ∨ app_type ∈ [S "email", S "news", S "social"] then
      let r := summarize_contextual client package_name title content
      { summary := r.summary, strategy := S "contextual",
        app_type := some r.app_type, confidence := r.confidence,
        urgency := none, sentiment := none, error := r.error,
        original_length := 0, compression_ratio := 0 }
    else if contains_sentiment_indicators content then
      let r := summarize_with_sentiment client content
      { summary := r.summary, strategy := S "sentiment",
        app_type := none, confidence := r.confidence,
        urgency := some r.urgency, sentiment := some r.sentiment,
        error := r.error, original_length := 0, compression_ratio := 0 }
    else
      { summary := summarize_basic client content, strategy := S "basic",
        app_type := some app_type, confidence := S "medium",
        urgency := none, sentiment := none, error := none,
        original_length := 0, compression_ratio := 0 }
  { base with
    original_length := text_length,
    compression_ratio :=
      ((base.summary.length : ℚ) / ((max text_length 1 : Nat) : ℚ)) }

/-- Module-level `summarize_notification` (lines 353-367): delegates to
`smart_summarize` on the (lazily created) global summarizer, whose client
handle is the `client` argument here. -/
def summarize_notification (client : Option LLMClient)
    (package_name title content raw_text : Str) : SummaryResult :=
  smart_summarize client package_name title content raw_text

/-! ### `main.summarize_text` (the API-layer wrapper) -/

/-- Return value of `main.summarize_text`: either the dictionary produced by
`summarize_notification`, or the hand-built fallback dictionary of the
`except` branch. -/
inductive ApiSummary where
  | ok (r : SummaryResult)
  | failed (summary : Str) (strategy : Str) (confidence : Str) (error : Str)
deriving DecidableEq

/-- `main.summarize_text` (lines 35-59 of `main.py`).  The outcome of the
call to `summarize_notification` is passed in as an `Except`: `.error e`
models the call raising an exception with message `str(e) = e`. -/
def summarize_text (call : Except Str SummaryResult) (content : Str) : ApiSummary :=
  match call with
  | .ok result => .ok result
  | .error e =>
      let simple_summary :=
        if 100 < content.length then content.take 100 ++ S "..." else content
      .failed simple_summary (S "fallback") (S "low") e

/-! ## General lemmas about the string primitives -/

set_option maxRecDepth 8000

lemma containsSub_nil_left (l : Str) : containsSub [] l = true := by
  cases l <;> simp [containsSub, isPrefixL]

lemma isPrefixL_append (p xs ys : Str) (h : isPrefixL p xs = true) :
    isPrefixL p (xs ++ ys) = true := by
  induction p generalizing xs with
  | nil => rfl
  | cons a as ih =>
    cases xs with
    | nil => simp [isPrefixL] at h
    | cons b bs =>
      simp only [isPrefixL, Bool.and_eq_true] at h
      simpa [isPrefixL, Bool.and_eq_true, h.1] using ih bs h.2

lemma containsSub_append_left (n xs ys : Str) (h : containsSub n xs = true) :
    containsSub n (xs ++ ys) = true := by
  induction xs with
  | nil =>
    simp only [containsSub, List.isEmpty_iff] at h
    subst h
    exact containsSub_nil_left ys
  | cons c cs ih =>
    simp only [containsSub, Bool.or_eq_true] at h ⊢
    rcases h with h | h
    · exact Or.inl (isPrefixL_append n (c :: cs) ys h)
    · exact Or.inr (ih h)

lemma isPrefixL_exists (p s : Str) (h : isPrefixL p s = true) : ∃ t, s = p ++ t := by
  induction p generalizing s with
  | nil => exact ⟨s, rfl⟩
  | cons a as ih =>
    cases s with
    | nil => simp [isPrefixL] at h
    | cons b bs =>
      simp only [isPrefixL, Bool.and_eq_true] at h
      obtain ⟨t, ht⟩ := ih bs h.2
      exact ⟨t, by simp [ht, (eq_of_beq h.1).symm]⟩

lemma pySplitAux_ne_nil (sep : Str) (k : Nat) (s : Str) : pySplitAux sep k s ≠ [] := by
  induction s generalizing k with
  | nil => cases k <;> simp [pySplitAux]
  | cons c cs ih =>
    cases k with
    | succ n => simpa [pySplitAux] using ih n
    | zero =>
      simp only [pySplitAux]
      split
      · simp
      · split <;> simp

lemma pySplit_ne_nil (sep s : Str) : pySplit sep s ≠ [] := pySplitAux_ne_nil sep 0 s

lemma pySplit_no_sep (sep s : Str) (h : containsSub sep s = false) : pySplit sep s = [s] := by
  induction s with
  | nil => rfl
  | cons c cs ih =>
    simp only [containsSub, Bool.or_eq_false_iff] at h
    have ih2 : pySplitAux sep 0 cs = [cs] := ih h.2
    show pySplitAux sep 0 (c :: cs) = [c :: cs]
    simp only [pySplitAux, h.1, Bool.and_false, Bool.false_eq_true, if_false, ih2]

lemma pySplit_two_of_sep (sep s : Str) (hsep : sep ≠ []) (h : containsSub sep s = true) :
    2 ≤ (pySplit sep s).length := by
  induction s with
  | nil =>
    simp only [containsSub, List.isEmpty_iff] at h
    exact absurd h hsep
  | cons c cs ih =>
    simp only [containsSub, Bool.or_eq_true] at h
    show 2 ≤ (pySplitAux sep 0 (c :: cs)).length
    by_cases hp : isPrefixL sep (c :: cs) = true
    · have hcond : (!sep.isEmpty && isPrefixL sep (c :: cs)) = true := by
        simp [hp, List.isEmpty_iff, hsep]
      simp only [pySplitAux, hcond, if_true]
      cases hq : pySplitAux sep (sep.length - 1) cs with
      | nil => exact absurd hq (pySplitAux_ne_nil sep _ cs)
      | cons a b => simp [hq, Nat.succ_le_succ, Nat.le_add_left]
    · have hp' : isPrefixL sep (c :: cs) = false := by
        simpa using hp
      have h2 : containsSub sep cs = true := by
        rcases h with h | h
        · exact absurd h hp
        · exact h
      have hcond : (!sep.isEmpty && isPrefixL sep (c :: cs)) = false := by
        simp [hp']
      have ih2 : 2 ≤ (pySplitAux sep 0 cs).length := ih h2
      simp only [pySplitAux, hcond, Bool.false_eq_true, if_false]
      cases hq : pySplitAux sep 0 cs with
      | nil => exact absurd hq (pySplitAux_ne_nil sep 0 cs)
      | cons a b => simpa [hq] using ih2

lemma getElem?_one_isSome {α : Type} (l : List α) (h : 2 ≤ l.length) : l[1]?.isSome := by
  match l with
  | [] => simp at h
  | [a] => simp at h
  | a :: b :: t => simp

/-! ## Lemmas about the sentiment-response parser -/

lemma sentStep_isSome (st : Str × Str) (part : Str) : (sentStep st part).isSome := by
  unfold sentStep
  split
  · rename_i hU
    obtain ⟨t, rfl⟩ := isPrefixL_exists _ _ hU
    obtain ⟨v, hv⟩ := Option.isSome_iff_exists.mp
      (getElem?_one_isSome _ (pySplit_two_of_sep (S ":") (S "Urgency:" ++ t) (by decide)
        (containsSub_append_left (S ":") (S "Urgency:") t (by decide))))
    rw [hv]
    rfl
  · split
    · rename_i hS2
      obtain ⟨t, rfl⟩ := isPrefixL_exists _ _ hS2
      obtain ⟨v, hv⟩ := Option.isSome_iff_exists.mp
        (getElem?_one_isSome _ (pySplit_two_of_sep (S ":") (S "Sentiment:" ++ t) (by decide)
          (containsSub_append_left (S ":") (S "Sentiment:") t (by decide))))
      rw [hv]
      rfl
    · rfl

lemma sentLoop_isSome (parts : List Str) : ∀ st, (sentLoop st parts).isSome := by
  induction parts with
  | nil => intro st; rfl
  | cons p ps ih =>
    intro st
    simp only [sentLoop]
    obtain ⟨st2, h2⟩ := Option.isSome_iff_exists.mp (sentStep_isSome st p)
    rw [h2]
    exact ih st2

/-! ## Lemmas about `fallback_summary` and `smart_summarize` -/

lemma append_ne_nil_left (a b : Str) (ha : a ≠ []) : a ++ b ≠ [] :=
  fun hh => ha (List.append_eq_nil.mp hh).1

lemma append_ne_nil_right (a b : Str) (hb : b ≠ []) : a ++ b ≠ [] :=
  fun hh => hb (List.append_eq_nil.mp hh).2

lemma fallback_summary_ne_nil (text : Str) (h : text ≠ []) : fallback_summary text ≠ [] := by
  simp only [fallback_summary]
  split
  · exact h
  · split
    · split
      · exact append_ne_nil_right _ _ (by decide)
      · exact h
    · rename_i hgt
      split
      · exact append_ne_nil_right _ _ (by decide)
      · rw [if_pos (by omega)]
        exact append_ne_nil_right _ _ (append_ne_nil_right _ _ (by decide))

lemma smart_ratio_def (client : Option LLMClient) (package_name title content raw_text : Str) :
    (smart_summarize client package_name title content raw_text).compression_ratio =
      ((smart_summarize client package_name title content raw_text).summary.length : ℚ) /
        ((max content.length 1 : Nat) : ℚ) := rfl

lemma smart_length_def (client : Option LLMClient) (package_name title content raw_text : Str) :
    (smart_summarize client package_name title content raw_text).original_length =
      content.length := rfl

lemma smart_none_summary (package_name title content raw_text : Str) :
    (smart_summarize none package_name title content raw_text).summary =
      fallback_summary content := by
  simp only [smart_summarize]
  split
  · rfl
  · split <;> rfl

lemma smart_none_conf (package_name title content raw_text : Str) :
    (smart_summarize none package_name title content raw_text).confidence = S "low" ∨
      ((smart_summarize none package_name title content raw_text).strategy = S "basic" ∧
        (smart_summarize none package_name title content raw_text).confidence = S "medium") := by
  simp only [smart_summarize]
  split
  · exact Or.inl rfl
  · split
    · exact Or.inl rfl
    · exact Or.inr ⟨rfl, rfl⟩

/-! ## Claims -/

/-- C1 counterexample: with no client configured, a short, keyword-free
notification from an unclassified app is dispatched to the basic strategy,
and the returned confidence is the literal "medium", not "low" as the claim
states. -/
theorem c1_counterexample :
    (smart_summarize none (S "com.unknown.app") (S "title") (S "hello") (S "raw")).strategy
        = S "basic" ∧
      (smart_summarize none (S "com.unknown.app") (S "title") (S "hello") (S "raw")).confidence
        = S "medium" ∧
      (smart_summarize none (S "com.unknown.app") (S "title") (S "hello") (S "raw")).confidence
        ≠ S "low" :=
  ⟨by decide, by decide, by decide⟩

/-- C1 (amended): when the client handle was never configured, every
`smart_summarize` result carries the `FallbackSummarizer` output as its
summary on all three strategy paths; its confidence is "low" on the
contextual and sentiment paths, but the basic path reports "medium". -/
theorem c1_no_client_always_fallback (package_name title content raw_text : Str) :
    (smart_summarize none package_name title content raw_text).summary =
        fallback_summary content ∧
      ((smart_summarize none package_name title content raw_text).confidence = S "low" ∨
        ((smart_summarize none package_name title content raw_text).strategy = S "basic" ∧
          (smart_summarize none package_name title content raw_text).confidence = S "medium")) :=
  ⟨smart_none_summary package_name title content raw_text,
   smart_none_conf package_name title content raw_text⟩

/-- C3 counterexample: with empty content and no client configured, the
fallback path returns the content itself, so the summary is the empty
string — the non-emptiness invariant fails. -/
theorem c3_counterexample :
    (smart_summarize none (S "com.unknown.app") (S "title") [] (S "raw")).summary = [] := by
  decide

/-- C3 (amended): `compression_ratio` is always ≥ 0; the summary is
non-empty whenever the content is non-empty and no client is configured
(with empty content the fallback path returns the empty content itself). -/
theorem c3_invariants (client : Option LLMClient)
    (package_name title content raw_text : Str) :
    0 ≤ (smart_summarize client package_name title content raw_text).compression_ratio ∧
      (client = none → content ≠ [] →
        (smart_summarize client package_name title content raw_text).summary ≠ []) := by
  constructor
  · rw [smart_ratio_def]
    exact div_nonneg (Nat.cast_nonneg _) (Nat.cast_nonneg _)
  · rintro rfl hc
    rw [smart_none_summary]
    exact fallback_summary_ne_nil content hc

/-- C3 witness: the amended invariant at a concrete input. -/
theorem c3_invariants_witness :
    0 ≤ (smart_summarize none (S "com.unknown.app") (S "t") (S "hi") (S "r")).compression_ratio
      ∧ (smart_summarize none (S "com.unknown.app") (S "t") (S "hi") (S "r")).summary ≠ [] :=
  ⟨(c3_invariants none (S "com.unknown.app") (S "t") (S "hi") (S "r")).1,
   (c3_invariants none (S "com.unknown.app") (S "t") (S "hi") (S "r")).2 rfl (by decide)⟩

/-- C4: for an app classified as "other", contents longer than 200
characters select the contextual strategy (regardless of sentiment
keywords — contextual takes priority), and contents of length at most 200
without sentiment indicators select the basic strategy; the threshold
comparison is strictly greater than 200. -/
theorem c4_strategy_thresholds (client : Option LLMClient)
    (package_name title content raw_text : Str)
    (h_other : get_app_type package_name = S "other") :
    (200 < content.length →
      (smart_summarize client package_name title content raw_text).strategy
        = S "contextual") ∧
    (content.length ≤ 200 → contains_sentiment_indicators content = false →
      (smart_summarize client package_name title content raw_text).strategy
        = S "basic") := by
  constructor
  · intro hlen
    simp only [smart_summarize]
    rw [if_pos (Or.inl hlen)]
  · intro hlen hsent
    simp only [smart_summarize]
    rw [if_neg (by push_neg; exact ⟨by omega, by rw [h_other]; decide⟩),
      if_neg (by simp [hsent])]

/-- C4 witness: the two boundary lengths 201 and 200 at concrete inputs. -/
theorem c4_strategy_thresholds_witness :
    (smart_summarize none (S "com.unknown.app") (S "t") (List.replicate 201 'a') (S "r")).strategy
        = S "contextual" ∧
      (smart_summarize none (S "com.unknown.app") (S "t") (List.replicate 200 'a') (S "r")).strategy
        = S "basic" :=
  ⟨(c4_strategy_thresholds none (S "com.unknown.app") (S "t") (List.replicate 201 'a') (S "r")
      (by decide)).1 (by decide),
   (c4_strategy_thresholds none (S "com.unknown.app") (S "t") (List.replicate 200 'a') (S "r")
      (by decide)).2 (by decide) (by decide)⟩

/-- C5: the fallback summarizer returns any text of length at most 100
unchanged. -/
theorem c5_short_text_unchanged (text : Str) (h : text.length ≤ 100) :
    fallback_summary text = text := by
  simp only [fallback_summary]
  rw [if_pos h]

/-- C5 witness: the short-text identity at a concrete input. -/
theorem c5_short_text_unchanged_witness :
    (S "Meeting at 5pm").length ≤ 100 ∧
      fallback_summary (S "Meeting at 5pm") = S "Meeting at 5pm" :=
  ⟨by decide, c5_short_text_unchanged (S "Meeting at 5pm") (by decide)⟩

/-- C2 counterexample: "hello" contains no " | " separator, yet the parser
returns confidence "high", not "low" as the claim states (summary, urgency
and sentiment do match the claimed values). -/
theorem c2_counterexample :
    containsSub (S " | ") (S "hello") = false ∧
      (parse_sentiment_response (S "hello")).confidence = S "high" ∧
      (parse_sentiment_response (S "hello")).confidence ≠ S "low" :=
  ⟨by decide, by decide, by decide⟩

/-- C2 (amended): for every response with no " | " separator, the parser
returns the raw response as summary with the default urgency "medium" and
sentiment "neutral", but with confidence "high": the try body completes
normally, and the code marks every completed parse as high confidence. -/
theorem c2_no_separator_parse (response : Str)
    (h : containsSub (S " | ") response = false) :
    parse_sentiment_response response =
      { summary := response, urgency := S "medium", sentiment := S "neutral",
        confidence := S "high" } := by
  unfold parse_sentiment_response parse_sentiment_try
  rw [pySplit_no_sep _ _ h]
  rfl

/-- C2 witness: the amended parse at a concrete separator-free response. -/
theorem c2_no_separator_parse_witness :
    containsSub (S " | ") (S "Meeting at 5pm") = false ∧
      parse_sentiment_response (S "Meeting at 5pm") =
        { summary := S "Meeting at 5pm", urgency := S "medium",
          sentiment := S "neutral", confidence := S "high" } :=
  ⟨by decide, c2_no_separator_parse (S "Meeting at 5pm") (by decide)⟩

/-- C6: for text longer than 100 characters that splits on ". " into more
than two sentences, the fallback summarizer returns the first sentence
joined with the first sentence containing an important keyword
(case-insensitively) when some sentence contains one, and otherwise the
first two sentences joined. -/
theorem c6_keyword_sentence_selection (text : Str)
    (hlen : 100 < text.length)
    (hsplit : 2 < (pySplit (S ". ") text).length) :
    fallback_summary text =
      match (pySplit (S ". ") text).find? hasImportantWord with
      | some important_sentence =>
          (pySplit (S ". ") text).getD 0 [] ++ S ". " ++ important_sentence ++ S "."
      | none =>
          (pySplit (S ". ") text).getD 0 [] ++ S ". " ++
            (pySplit (S ". ") text).getD 1 [] ++ S "." := by
  simp only [fallback_summary]
  rw [if_neg (by omega), if_neg (by omega)]
  split
  · rfl
  · rw [if_pos (by omega)]
    simp [List.append_assoc]

/-- C6 witness: a 115-character text with three sentences, the third
containing the keyword "urgent". -/
theorem c6_keyword_sentence_selection_witness :
    fallback_summary (List.replicate 50 'a' ++ S ". " ++ List.replicate 50 'b' ++ S ". "
        ++ S "urgent news")
      = List.replicate 50 'a' ++ S ". " ++ S "urgent news" ++ S "." := by
  rw [c6_keyword_sentence_selection
    (List.replicate 50 'a' ++ S ". " ++ List.replicate 50 'b' ++ S ". " ++ S "urgent news")
    (by decide) (by decide)]
  decide

/-- C7: the app-type classifier is pure and total into the seven fixed
categories plus "other" (it lower-cases the identifier and scans the
keyword table in its fixed order, first match winning), and it classifies
"com.whatsapp" as messaging and "com.unknown.app" as other. -/
theorem c7_app_type_classification :
    (∀ package_name : Str,
      get_app_type package_name = S "messaging" ∨
      get_app_type package_name = S "email" ∨
      get_app_type package_name = S "social" ∨
      get_app_type package_name = S "news" ∨
      get_app_type package_name = S "productivity" ∨
      get_app_type package_name = S "entertainment" ∨
      get_app_type package_name = S "system" ∨
      get_app_type package_name = S "other") ∧
    get_app_type (S "com.whatsapp") = S "messaging" ∧
    get_app_type (S "com.unknown.app") = S "other" := by
  refine ⟨fun package_name => ?_, by decide, by decide⟩
  simp only [get_app_type]
  cases hf : app_types.find?
      (fun p => p.2.any (fun keyword => containsSub keyword (pyLower package_name))) with
  | none => simp
  | some p =>
    have hm := List.mem_of_find?_eq_some hf
    simp only [app_types, List.mem_cons, List.not_mem_nil, or_false] at hm
    rcases hm with h | h | h | h | h | h | h <;> simp [h]

/-- C8: every result of `smart_summarize`, on every dispatch path, carries
original_length equal to the content length and compression_ratio equal to
the summary length divided by max(content length, 1); in particular a
400-character content summarized in 40 characters yields ratio 1/10. -/
theorem c8_metadata_fields :
    (∀ (client : Option LLMClient) (package_name title content raw_text : Str),
      (smart_summarize client package_name title content raw_text).original_length
          = content.length ∧
        (smart_summarize client package_name title content raw_text).compression_ratio
          = ((smart_summarize client package_name title content raw_text).summary.length : ℚ)
              / ((max content.length 1 : Nat) : ℚ)) ∧
    (smart_summarize (some (fun _ => Except.ok (List.replicate 40 'b')))
        (S "com.unknown.app") (S "t") (List.replicate 400 'a') (S "r")).compression_ratio
      = 1 / 10 := by
  refine ⟨fun client package_name title content raw_text => ⟨rfl, rfl⟩, ?_⟩
  rw [smart_ratio_def]
  rw [show (smart_summarize (some (fun _ => Except.ok (List.replicate 40 'b')))
      (S "com.unknown.app") (S "t") (List.replicate 400 'a') (S "r")).summary.length = 40
    from by decide]
  norm_num

/-- C9: the try body of `_parse_sentiment_response` never raises — a
" | "-segment starting with "Urgency:" or "Sentiment:" necessarily contains
a colon, so index 1 into its split on ":" is in range — hence the parser
always returns through the main path with confidence "high" and the
defensive except branch is unreachable. -/
theorem c9_parser_try_total (response : Str) :
    ∃ r : SentimentParse, parse_sentiment_try response = some r ∧
      parse_sentiment_response response = r ∧ r.confidence = S "high" := by
  cases hp : pySplit (S " | ") response with
  | nil => exact absurd hp (pySplit_ne_nil _ _)
  | cons summary rest =>
    obtain ⟨st, hst⟩ :=
      Option.isSome_iff_exists.mp (sentLoop_isSome rest (S "medium", S "neutral"))
    obtain ⟨u, sv⟩ := st
    refine ⟨SentimentParse.mk summary u sv (S "high"), ?_, ?_, rfl⟩
    · simp [parse_sentiment_try, hp, hst]
    · simp [parse_sentiment_response, parse_sentiment_try, hp, hst]

/-- C10: the API wrapper returns through its except branch rather than
propagating: when the call to `summarize_notification` raises with message
e, `summarize_text` returns the fallback dictionary with strategy
"fallback", confidence "low", error e, and as summary the first 100
characters of the content followed by "..." when the content is longer
than 100 characters, or the content unchanged otherwise. -/
theorem c10_api_wrapper_fallback (e content : Str) :
    summarize_text (.error e) content =
      .failed (if 100 < content.length then content.take 100 ++ S "..." else content)
        (S "fallback") (S "low") e := rfl

end Symmarizer
